import Mathlib

/-!
Verification of the Money-management budgeting dashboard
(Shubham-Aswal/Money-management).

The development shallowly embeds the repository's budgeting core:

* `src/backend/dashboard.js` — the "Cleaned & Firestore-ready (Version 2)"
  dashboard logic (ledger state, mutators, `recalculateDashboard`,
  heatmap and sentiment derivations, `saveState`).
* the inline dashboard copies shipped in the HTML bundle (unnamed
  part_001), in particular the revised `recalculateDashboard` that divides
  by the total number of days in the month (part_001 lines 2840-2885),
  embedded here as `recalculateDashboardFixed`.
* `firebase-init.js` (unnamed part_000) — `loadUserDoc`, `syncUserData`
  (merge write), and the default first-time user document.

JavaScript numbers are modelled by `JSNum` (an integer, an infinity, or
NaN): every numeric form field passes through `parseInt`, which returns an
integer or NaN (never a fraction or an infinity), so `Option Int` models a
`parseInt` result (`none` = NaN) and the only places non-integer values
arise are the stored `daily` fields of loans and goals (division by a
possibly-zero duration).  Calendar values (`new Date()` day-of-month,
days-in-month, `Date.now()` milliseconds) enter the functions as explicit
parameters, and `new Date(ms)` field extraction is abstracted by a
`dateOf : Int → CalDate` parameter.
-/

namespace MoneyMgmt

/-- A JavaScript number as it can appear in this code base: an integer,
positive or negative infinity, or NaN. -/
inductive JSNum where
  | int (n : Int)
  | posInf
  | negInf
  | nan
deriving DecidableEq, Repr

/-- JavaScript addition restricted to `JSNum` (IEEE semantics for the
cases that can arise: opposite infinities give NaN, NaN is absorbing). -/
def jsAdd : JSNum → JSNum → JSNum
  | .nan, _ => .nan
  | _, .nan => .nan
  | .posInf, .negInf => .nan
  | .negInf, .posInf => .nan
  | .posInf, _ => .posInf
  | _, .posInf => .posInf
  | .negInf, _ => .negInf
  | _, .negInf => .negInf
  | .int a, .int b => .int (a + b)

/-- JavaScript unary minus on `JSNum`. -/
def jsNeg : JSNum → JSNum
  | .int a => .int (-a)
  | .posInf => .negInf
  | .negInf => .posInf
  | .nan => .nan

/-- JavaScript subtraction `a - b` on `JSNum`. -/
def jsSub (a b : JSNum) : JSNum := jsAdd a (jsNeg b)

/-- `Math.max` on two `JSNum`s (NaN-propagating, as in JavaScript). -/
def jsMax : JSNum → JSNum → JSNum
  | .nan, _ => .nan
  | _, .nan => .nan
  | .posInf, _ => .posInf
  | _, .posInf => .posInf
  | .negInf, b => b
  | a, .negInf => a
  | .int a, .int b => .int (max a b)

/-- `Math.floor(a / b)` where `a`, `b` are `parseInt` results (`none` =
NaN).  Division by zero yields a signed infinity (or NaN for `0/0`);
otherwise the result is the floor of the exact quotient, `Int.fdiv`. -/
def jsFloorDivP : Option Int → Option Int → JSNum
  | none, _ => .nan
  | _, none => .nan
  | some a, some b =>
    if b = 0 then
      if 0 < a then .posInf else if a < 0 then .negInf else .nan
    else .int (Int.fdiv a b)

/-- Exact integer ceiling of `a / d` for `d ≠ 0`
(the value of `Math.ceil(a / d)` on integer arguments). -/
def ceilDivInt (a d : Int) : Int := -(Int.fdiv (-a) d)

/-- `Math.ceil(a / d)` where `a` is a `parseInt` result and `d` a positive
integer day count (as produced by `saveGoal`). -/
def jsCeilDivP (a : Option Int) (d : Nat) : JSNum :=
  match a with
  | none => .nan
  | some a => .int (ceilDivInt a d)

/-- JavaScript `x || y` on strings: the empty string is falsy. -/
def jsOrStr (a b : String) : String := if a = "" then b else a

/-- A calendar date as extracted from a JavaScript `Date`
(`getFullYear`, `getMonth` (0-based), `getDate`). -/
structure CalDate where
  year : Int
  month : Int
  day : Int
deriving DecidableEq, Repr

/-- A logged transaction (`saveTransaction`, dashboard.js 513-523). -/
structure Transaction where
  date : String
  merchant : String
  category : String
  sentiment : String
  timestamp : Int
  amount : Int
deriving DecidableEq, Repr

/-- A fixed monthly expense (`addFixedExpense`, dashboard.js 707). -/
structure FixedExpense where
  name : String
  amount : Int
deriving DecidableEq, Repr

/-- A savings goal (`saveGoal`, dashboard.js 263-270).  `amount` is a
`parseInt` result; `daily` is the stored `Math.ceil` quotient. -/
structure Goal where
  id : Int
  name : String
  amount : Option Int
  deadline : String
  daily : JSNum
  daysLeft : Nat
deriving DecidableEq, Repr

/-- A loan record (`saveLoan`, dashboard.js 836-843).  `amount` and
`duration` are `parseInt` results; `daily` is the stored
`Math.floor(amount / duration)`, which is an infinity or NaN when the
duration parses to 0 or NaN. -/
structure Loan where
  id : Int
  type : String
  person : String
  amount : Option Int
  duration : Option Int
  daily : JSNum
deriving DecidableEq, Repr

/-- A chat message (only its presence matters for the claims). -/
structure Message where
  type : String
  text : String
  author : String
  timestamp : Int
deriving DecidableEq, Repr

/-- A group member (`handleAddMember`). -/
structure Member where
  name : String
  phone : String
  email : String
deriving DecidableEq, Repr

/-- The in-memory user profile (dashboard.js `userProfile`). -/
structure Profile where
  name : String
  phone : String
  avatar : String
deriving DecidableEq, Repr

/-- The in-memory ledger owned by the dashboard session
(the module-level `let` bindings of dashboard.js, lines 20-33). -/
structure LocalState where
  userProfile : Profile
  transactions : List Transaction
  fixedExpenses : List FixedExpense
  activeGoals : List Goal
  activeLoans : List Loan
  chatStore : List (String × List Message)
  groupMembers : List (String × List Member)
  monthlyLimit : Int
  dailySpent : Int
  currentFilter : String
deriving DecidableEq, Repr

/-- The initial module state of dashboard.js (lines 20-31):
empty collections, `monthlyLimit = 30000`, `dailySpent = 0`. -/
def initialLocal : LocalState :=
  { userProfile := ⟨"", "", ""⟩
    transactions := []
    fixedExpenses := []
    activeGoals := []
    activeLoans := []
    chatStore := []
    groupMembers := []
    monthlyLimit := 30000
    dailySpent := 0
    currentFilter := "month" }

/-- `let totalFixed = 0; fixedExpenses.forEach(e => totalFixed += e.amount)`
(dashboard.js 764-765). -/
def totalFixedOf (fe : List FixedExpense) : Int :=
  fe.foldl (fun acc e => acc + e.amount) 0

/-- `let dailyDebt = 0; activeLoans.forEach(l => { if (l.type === "borrow")
dailyDebt += l.daily })` (dashboard.js 770-771). -/
def dailyDebtOf (ls : List Loan) : JSNum :=
  ls.foldl (fun acc l => if l.type = "borrow" then jsAdd acc l.daily else acc) (.int 0)

/-- `let dailyGoal = 0; activeGoals.forEach(g => dailyGoal += g.daily)`
(dashboard.js 773-774). -/
def dailyGoalOf (gs : List Goal) : JSNum :=
  gs.foldl (fun acc g => jsAdd acc g.daily) (.int 0)

/-- `recalculateDashboard` of `src/backend/dashboard.js` (lines 763-778).
`day` is `new Date().getDate()`, `daysInMonth` the number of days of the
current month; `updateDateTracker` returns `(daysInMonth - day) || 1`
(dashboard.js 92-106), so the divisor is the number of days REMAINING in
the month, floored to 1. -/
def recalculateDashboard (st : LocalState) (day daysInMonth : Int) : JSNum :=
  let totalFixed := totalFixedOf st.fixedExpenses
  let disposable := st.monthlyLimit - totalFixed
  let daysLeft := daysInMonth - day
  let daysRemaining := if daysLeft = 0 then 1 else daysLeft
  let dailyBase := Int.fdiv disposable daysRemaining
  jsMax (.int 0)
    (jsSub (jsSub (jsSub (.int dailyBase) (dailyDebtOf st.activeLoans))
      (dailyGoalOf st.activeGoals)) (.int st.dailySpent))

/-- The revised `recalculateDashboard` of the bundled copy (unnamed
part_001, lines 2840-2885): identical except that the daily base divides
by the TOTAL number of days in the current month. -/
def recalculateDashboardFixed (st : LocalState) (daysInMonth : Int) : JSNum :=
  let totalFixed := totalFixedOf st.fixedExpenses
  let disposable := st.monthlyLimit - totalFixed
  let dailyBase := Int.fdiv disposable daysInMonth
  jsMax (.int 0)
    (jsSub (jsSub (jsSub (.int dailyBase) (dailyDebtOf st.activeLoans))
      (dailyGoalOf st.activeGoals)) (.int st.dailySpent))

/-- `getFilteredTransactions` (dashboard.js 585-595).  `now` is
`Date.now()`; a transaction whose `timestamp` is falsy (0) is compared
against `Date.now()` itself. -/
def getFilteredTransactions (txs : List Transaction) (currentFilter : String)
    (now : Int) : List Transaction :=
  txs.filter (fun t =>
    let ts := if t.timestamp = 0 then now else t.timestamp
    let diff := now - ts
    if currentFilter = "day" then diff < 86400000
    else if currentFilter = "week" then diff < 86400000 * 7
    else if currentFilter = "month" then diff < 86400000 * 30
    else true)

/-- The accumulation loop of `updateSentimentAnalysis`
(dashboard.js 597-605): totals `(worthy, regret, ignore)`. -/
def sentimentTotals (txs : List Transaction) : Int × Int × Int :=
  txs.foldl (fun acc tx =>
    if tx.sentiment = "worthy" then (acc.1 + tx.amount, acc.2.1, acc.2.2)
    else if tx.sentiment = "regret" then (acc.1, acc.2.1 + tx.amount, acc.2.2)
    else (acc.1, acc.2.1, acc.2.2 + tx.amount)) (0, 0, 0)

/-- Sum of the amounts of a transaction list. -/
def sumAmounts (txs : List Transaction) : Int :=
  txs.foldl (fun acc tx => acc + tx.amount) 0

/-- The per-day total of `renderHeatmap`'s `spendingMap`
(dashboard.js 120-127): the summed amounts of the transactions that fall
on day `i` of the displayed `(year, month)`.  `dateOf` abstracts
JavaScript `new Date(ms)` field extraction; a falsy (0) timestamp falls
back to `Date.now()` (dashboard.js line 122). -/
def spendOnDay (txs : List Transaction) (dateOf : Int → CalDate) (now : Int)
    (year month i : Int) : Int :=
  txs.foldl (fun acc tx =>
    let ts := if tx.timestamp = 0 then now else tx.timestamp
    let d := dateOf ts
    if d.month = month ∧ d.year = year ∧ d.day = i then acc + tx.amount else acc) 0

/-- The intensity tier assigned by `renderHeatmap` (dashboard.js 135-140):
a literal translation of the cascade of `if` reassignments
(0 = none, 1 = `> 0`, 2 = `≥ 500`, 3 = `≥ 2000`). -/
def heatTier (amount : Int) : Nat :=
  let c := 0
  let c := if 0 < amount then 1 else c
  let c := if 500 ≤ amount then 2 else c
  if 2000 ≤ amount then 3 else c

/-! ## Mutators (Ledger Store operations)

Each mutator takes the parsed form inputs: raw text fields as `String`
(JavaScript truthiness on a string is non-emptiness) and numeric fields as
`Option Int` (the `parseInt` result, `none` = NaN).  Identifiers produced
by `Date.now()` and the clock readings are explicit parameters. -/

/-- `saveTransaction` (dashboard.js 493-539): rejects an empty merchant
name and a falsy amount (NaN or 0), otherwise adds the amount to
`dailySpent` and prepends (`unshift`) the new transaction. -/
def saveTransaction (st : LocalState) (merchant : String) (amountP : Option Int)
    (category sentiment : String) (now : Int) : LocalState :=
  match amountP with
  | none => st
  | some amount =>
    if merchant = "" ∨ amount = 0 then st
    else
      { st with
        dailySpent := st.dailySpent + amount
        transactions :=
          ⟨"Today, Just now", merchant, category, sentiment, now, amount⟩ ::
            st.transactions }

/-- `addFixedExpense` (dashboard.js 699-713): pushes the expense only when
the name is non-empty and the parsed amount is `> 0` (NaN fails the
comparison); otherwise it silently does nothing. -/
def addFixedExpense (st : LocalState) (name : String) (amountP : Option Int) :
    LocalState :=
  match amountP with
  | none => st
  | some amount =>
    if name ≠ "" ∧ 0 < amount then
      { st with fixedExpenses := st.fixedExpenses ++ [⟨name, amount⟩] }
    else st

/-- JavaScript `array.splice(start, 1)`: a negative `start` counts from the
end of the array (clamped to 0), a `start` past the end removes nothing. -/
def spliceOne {α : Type} (xs : List α) (start : Int) : List α :=
  let len : Int := xs.length
  let s : Nat := (if start < 0 then max (len + start) 0 else min start len).toNat
  xs.take s ++ xs.drop (s + 1)

/-- `removeFixedExpense` (dashboard.js 715-719):
`fixedExpenses.splice(index, 1)`. -/
def removeFixedExpense (st : LocalState) (index : Int) : LocalState :=
  { st with fixedExpenses := spliceOne st.fixedExpenses index }

/-- `removeGoal` (dashboard.js 285-291):
`activeGoals = activeGoals.filter(g => g.id !== id)`. -/
def removeGoal (st : LocalState) (id : Int) : LocalState :=
  { st with activeGoals := st.activeGoals.filter (fun g => g.id ≠ id) }

/-- The `diffDays` computation of `saveGoal` (dashboard.js 257-260):
`Math.ceil(Math.abs(targetDate - today) / 86400000) || 1`.  `deadline` is
the millisecond value of `new Date(dateInput.value)` (`none` for an
invalid date, whose NaN propagates to a falsy `Math.ceil` result, so the
`|| 1` yields 1); `today` is the current clock in milliseconds. -/
def goalDiffDays (deadline : Option Int) (today : Int) : Nat :=
  match deadline with
  | none => 1
  | some dl =>
    let t : Nat := (dl - today).natAbs
    let c : Nat := (t + 86400000 - 1) / 86400000
    if c = 0 then 1 else c

/-- `saveGoal` (dashboard.js 247-283): rejects empty name/amount/date
fields, otherwise pushes a goal whose `daily` is
`Math.ceil(parseInt(amount) / diffDays)` and whose `daysLeft` is
`diffDays`, both computed once at creation time. -/
def saveGoal (st : LocalState) (name amountRaw dateRaw : String)
    (amountP deadline : Option Int) (today newId : Int) : LocalState :=
  if name = "" ∨ amountRaw = "" ∨ dateRaw = "" then st
  else
    let diffDays := goalDiffDays deadline today
    { st with
      activeGoals := st.activeGoals ++
        [⟨newId, name, amountP, dateRaw, jsCeilDivP amountP diffDays, diffDays⟩] }

/-- `saveLoan` (dashboard.js 829-855): no validation beyond the existence
of the input elements; the loan is pushed unconditionally with
`daily = Math.floor(parseInt(amount) / parseInt(duration))`. -/
def saveLoan (st : LocalState) (type person : String)
    (amountP durationP : Option Int) (newId : Int) : LocalState :=
  { st with
    activeLoans := st.activeLoans ++
      [⟨newId, type, person, amountP, durationP, jsFloorDivP amountP durationP⟩] }

/-- `saveBudgetSettings` (dashboard.js 754-761):
`monthlyLimit = parseInt(input.value) || monthlyLimit` — a NaN or zero
parse keeps the previous limit. -/
def saveBudgetSettings (st : LocalState) (limitP : Option Int) : LocalState :=
  { st with
    monthlyLimit :=
      match limitP with
      | none => st.monthlyLimit
      | some v => if v = 0 then st.monthlyLimit else v }

/-- `saveProfile` (dashboard.js 169-186): non-empty name/phone fields
overwrite the profile. -/
def saveProfile (st : LocalState) (name phone : String) : LocalState :=
  { st with
    userProfile :=
      { st.userProfile with
        name := if name = "" then st.userProfile.name else name
        phone := if phone = "" then st.userProfile.phone else phone } }

/-! ## Persistence (firebase-init.js, unnamed part_000) -/

/-- The remote per-user Firestore document (`window.userData`).  All
fields that every document created by this system carries are plain;
`monthlyLimit` and `createdAt` are `Option` so that the ABSENCE of the
field in a document or merge payload is representable (`none` = the field
is not present). -/
structure Doc where
  name : String
  phone : String
  email : String
  avatar : String
  transactions : List Transaction
  fixedExpenses : List FixedExpense
  goals : List Goal
  loans : List Loan
  chatGroups : List (String × List Message)
  groupMembers : List (String × List Member)
  monthlyLimit : Option Int
  createdAt : Option Int
deriving DecidableEq, Repr

/-- The default first-time user document created by `loadUserDoc`
(firebase-init.js 84-103): empty collections and `monthlyLimit: 0`. -/
def defaultUser (now : Int) : Doc :=
  { name := "User"
    phone := ""
    email := ""
    avatar := "https://api.dicebear.com/7.x/avataaars/svg?seed=default"
    transactions := []
    fixedExpenses := []
    goals := []
    loans := []
    chatGroups := []
    groupMembers := []
    monthlyLimit := some 0
    createdAt := some now }

/-- `loadUserDoc` (firebase-init.js 79-106): reads the remote document; if
absent, writes the default document and returns it.  The second component
lists the documents written to the store during the call. -/
def loadUserDoc (remote : Option Doc) (now : Int) : Doc × List Doc :=
  match remote with
  | none => (defaultUser now, [defaultUser now])
  | some d => (d, [])

/-- `setDoc(ref, payload, { merge: true })` (firebase-init.js 114-127):
fields present in the payload overwrite the remote document, absent fields
are preserved.  All plain fields of `Doc` are always present in a payload
produced by this system; the two `Option` fields merge by presence. -/
def mergeDoc (remote payload : Doc) : Doc :=
  { payload with
    monthlyLimit :=
      match payload.monthlyLimit with
      | some v => some v
      | none => remote.monthlyLimit
    createdAt :=
      match payload.createdAt with
      | some v => some v
      | none => remote.createdAt }

/-- `saveState` (dashboard.js 41-66): copies the in-memory ledger into
`window.userData` and hands it to `syncUserData`.  It assigns `name`,
`phone`, `avatar` (with `||` fallbacks), `transactions`, `fixedExpenses`,
`goals`, `loans`, `chatGroups` and `groupMembers`; every other field of
`window.userData` — in particular `monthlyLimit`, `email` and
`createdAt` — is left as hydrated. -/
def saveState (st : LocalState) (ud : Doc) : Doc :=
  { ud with
    name := jsOrStr st.userProfile.name (jsOrStr ud.name "User")
    phone := jsOrStr st.userProfile.phone (jsOrStr ud.phone "")
    avatar := jsOrStr st.userProfile.avatar (jsOrStr ud.avatar "")
    transactions := st.transactions
    fixedExpenses := st.fixedExpenses
    goals := st.activeGoals
    loans := st.activeLoans
    chatGroups := st.chatStore
    groupMembers := st.groupMembers }

/-- Lookup in a JavaScript-object-as-association-list. -/
def assocGet {α : Type} (m : List (String × α)) (k : String) : Option α :=
  (m.find? (fun p => p.1 = k)).map (fun p => p.2)

/-- Key assignment in a JavaScript-object-as-association-list. -/
def assocSet {α : Type} (m : List (String × α)) (k : String) (v : α) :
    List (String × α) :=
  if (m.find? (fun p => p.1 = k)).isSome then
    m.map (fun p => if p.1 = k then (k, v) else p)
  else m ++ [(k, v)]

/-- The `firestore-ready` listener of dashboard.js (lines 1035-1062): maps
the loaded document onto the module state and seeds the default
"Roommates" group.  The fallbacks `ud.displayName`, `ud.photoURL` and
`ud.activeGoals` / `ud.activeLoans` read fields that no document produced
by this system carries, so they are always undefined (falsy) and the
`||` chains collapse as written here.  `monthlyLimit` and `dailySpent` are
NOT read from the document: they keep their module-initial values. -/
def hydrate (ud : Doc) (st : LocalState) : LocalState :=
  let st :=
    { st with
      userProfile :=
        ⟨jsOrStr ud.name "User", ud.phone,
          jsOrStr ud.avatar "https://api.dicebear.com/7.x/avataaars/svg?seed=default"⟩
      transactions := ud.transactions
      fixedExpenses := ud.fixedExpenses
      activeGoals := ud.goals
      activeLoans := ud.loans
      chatStore := ud.chatGroups
      groupMembers := ud.groupMembers }
  let st :=
    if assocGet st.chatStore "Roommates" = none then
      { st with chatStore := assocSet st.chatStore "Roommates" [] }
    else st
  if assocGet st.groupMembers "Roommates" = none then
    { st with groupMembers := assocSet st.groupMembers "Roommates" [] }
  else st

/-! ## A session as a transition system

Every mutating UI action updates the module state and then runs
`saveState` followed by `syncUserData` (a merge write of
`window.userData`).  `Op` enumerates the mutators with their inputs. -/

/-- One mutating UI action with its (already parsed) form inputs. -/
inductive Op where
  | opSaveTransaction (merchant : String) (amountP : Option Int)
      (category sentiment : String) (now : Int)
  | opAddFixedExpense (name : String) (amountP : Option Int)
  | opRemoveFixedExpense (index : Int)
  | opSaveGoal (name amountRaw dateRaw : String) (amountP deadline : Option Int)
      (today newId : Int)
  | opRemoveGoal (id : Int)
  | opSaveLoan (type person : String) (amountP durationP : Option Int) (newId : Int)
  | opSaveBudgetSettings (limitP : Option Int)
  | opSaveProfile (name phone : String)
deriving DecidableEq, Repr

/-- Apply one mutator to the module state. -/
def applyOp (op : Op) (st : LocalState) : LocalState :=
  match op with
  | .opSaveTransaction merchant amountP category sentiment now =>
      saveTransaction st merchant amountP category sentiment now
  | .opAddFixedExpense name amountP => addFixedExpense st name amountP
  | .opRemoveFixedExpense index => removeFixedExpense st index
  | .opSaveGoal name amountRaw dateRaw amountP deadline today newId =>
      saveGoal st name amountRaw dateRaw amountP deadline today newId
  | .opRemoveGoal id => removeGoal st id
  | .opSaveLoan type person amountP durationP newId =>
      saveLoan st type person amountP durationP newId
  | .opSaveBudgetSettings limitP => saveBudgetSettings st limitP
  | .opSaveProfile name phone => saveProfile st name phone

/-- A running session: the module state, the `window.userData` object, and
the remote document. -/
structure Session where
  state : LocalState
  userData : Doc
  remote : Doc
deriving DecidableEq, Repr

/-- One mutating action followed by the write-through
(`saveState` + merge commit). -/
def sessionStep (s : Session) (op : Op) : Session :=
  let st := applyOp op s.state
  let ud := saveState st s.userData
  { state := st, userData := ud, remote := mergeDoc s.remote ud }

/-- Run a list of mutating actions. -/
def runSession (s : Session) (ops : List Op) : Session :=
  ops.foldl sessionStep s

/-! ## Spec-side formulas

These definitions follow the WORDS of the specification (spec.md §4.2 and
§3) and exist only to be compared against the code-derived definitions
above. -/

/-- View a stored `daily` field as an integer, as the specification's data
model (which stipulates `durationDays > 0`, hence a finite integer
`dailyAmount`) implicitly does. -/
def intOfJSNum : JSNum → Int
  | .int n => n
  | _ => 0

/-- Modelled from the spec: "Daily safe spend = max(0, floor((monthlyLimit
− ΣfixedExpenses.amount) / daysInCurrentMonth) − Σ(borrow
loans).dailyAmount − Σgoals.dailyContribution − spentToday)", where
`daysInCurrentMonth` is the TOTAL number of days of the current month and
`spentToday` is the sum of the amounts of the transactions whose timestamp
falls on the current calendar date (`dateOf` abstracts the
timestamp-to-date conversion). -/
def claimedDailySafeSpend (st : LocalState) (dateOf : Int → CalDate)
    (today : CalDate) (daysInCurrentMonth : Int) : Int :=
  let fixed := (st.fixedExpenses.map (fun e => e.amount)).sum
  let borrow :=
    ((st.activeLoans.filter (fun l => l.type = "borrow")).map
      (fun l => intOfJSNum l.daily)).sum
  let goals := (st.activeGoals.map (fun g => intOfJSNum g.daily)).sum
  let spentToday :=
    ((st.transactions.filter (fun t => dateOf t.timestamp = today)).map
      (fun t => t.amount)).sum
  max 0 (Int.fdiv (st.monthlyLimit - fixed) daysInCurrentMonth
    - borrow - goals - spentToday)

/-- Modelled from the spec: `daysUntil(deadline)` in whole days, the
ceiling of the millisecond distance from today to a (future) deadline
divided by one day. -/
def specDaysUntil (deadline today : Int) : Nat :=
  ((deadline - today).toNat + 86400000 - 1) / 86400000

/-- Modelled from the spec: "dailyContribution =
ceil(targetAmount / max(daysUntil(deadline), 1))". -/
def specDailyContribution (targetAmount : Int) (deadline today : Int) : Int :=
  ceilDivInt targetAmount ((max (specDaysUntil deadline today) 1 : Nat) : Int)

/-! ## Concrete scenario states -/

/-- The specification's running scenario: `monthlyLimit = 30000` (the
module default), fixed expenses Rent 15000 and Internet 1000, no loans,
goals or spending today. -/
def scenarioState : LocalState :=
  { initialLocal with fixedExpenses := [⟨"Rent", 15000⟩, ⟨"Internet", 1000⟩] }

/-- The scenario state as hydrated in a fresh session whose stored
transaction list already contains a purchase of 100 made earlier today
(`dailySpent` is a session accumulator and is 0 after hydration). -/
def scenarioStateSpentToday : LocalState :=
  { scenarioState with
    transactions := [⟨"Today, Just now", "Chai", "Food", "neutral", 1000, 100⟩] }

/-- A date extraction that places every timestamp on the 15th day of a
30-day month (used to evaluate the spec formula on a concrete snapshot). -/
def dateOfDay15 : Int → CalDate := fun _ => ⟨2026, 3, 15⟩

/-- A concrete `lend` loan. -/
def lendLoan : Loan := ⟨9, "lend", "Carol", some 5000, some 10, .int 500⟩

/-! ## Helper lemmas -/

theorem jsAdd_int (a b : Int) : jsAdd (.int a) (.int b) = .int (a + b) := rfl

theorem jsSub_int (a b : Int) : jsSub (.int a) (.int b) = .int (a - b) := by
  simp [jsSub, jsNeg, jsAdd, sub_eq_add_neg]

theorem jsMax_int (a b : Int) : jsMax (.int a) (.int b) = .int (max a b) := rfl

/-- Closed form of the dashboard.js derivation when the borrow and goal
deductions are finite integers. -/
theorem recalculateDashboard_eq (st : LocalState) (day dim D G : Int)
    (hD : dailyDebtOf st.activeLoans = .int D)
    (hG : dailyGoalOf st.activeGoals = .int G) :
    recalculateDashboard st day dim =
      .int (max 0 (Int.fdiv (st.monthlyLimit - totalFixedOf st.fixedExpenses)
        (if dim - day = 0 then 1 else dim - day) - D - G - st.dailySpent)) := by
  simp only [recalculateDashboard, hD, hG, jsSub_int, jsMax_int]

/-- Closed form of the revised (part_001) derivation when the borrow and
goal deductions are finite integers. -/
theorem recalculateDashboardFixed_eq (st : LocalState) (dim D G : Int)
    (hD : dailyDebtOf st.activeLoans = .int D)
    (hG : dailyGoalOf st.activeGoals = .int G) :
    recalculateDashboardFixed st dim =
      .int (max 0 (Int.fdiv (st.monthlyLimit - totalFixedOf st.fixedExpenses)
        dim - D - G - st.dailySpent)) := by
  simp only [recalculateDashboardFixed, hD, hG, jsSub_int, jsMax_int]

/-- A non-borrow loan inserted anywhere in the list does not contribute to
the borrow deduction. -/
theorem dailyDebtOf_skip (pre post : List Loan) (l : Loan)
    (h : ¬ l.type = "borrow") :
    dailyDebtOf (pre ++ l :: post) = dailyDebtOf (pre ++ post) := by
  simp [dailyDebtOf, List.foldl_append, h]

/-- Pushing a borrow loan adds its `daily` to the borrow deduction. -/
theorem dailyDebtOf_push_borrow (ls : List Loan) (l : Loan)
    (h : l.type = "borrow") :
    dailyDebtOf (ls ++ [l]) = jsAdd (dailyDebtOf ls) l.daily := by
  simp [dailyDebtOf, List.foldl_append, h]

/-- The integer ceiling `ceilDivInt` satisfies the ceiling property. -/
theorem le_ceilDivInt_mul (a n : Int) (hn : 0 < n) :
    a ≤ ceilDivInt a n * n := by
  unfold ceilDivInt
  rw [Int.fdiv_eq_ediv _ (le_of_lt hn)]
  have h2 := Int.ediv_add_emod (-a) n
  have h3 : 0 ≤ (-a) % n := Int.emod_nonneg _ (ne_of_gt hn)
  rw [mul_comm n ((-a) / n)] at h2
  rw [neg_mul]
  linarith

/-- Shifting the accumulator out of the running amount sum. -/
theorem foldl_add_amount (txs : List Transaction) (c : Int) :
    txs.foldl (fun acc tx => acc + tx.amount) c
      = c + (txs.map (fun t => t.amount)).sum := by
  induction txs generalizing c with
  | nil => simp
  | cons t ts ih => simp [List.foldl_cons, ih, add_assoc]

/-- The three sentiment accumulators only ever absorb each amount once. -/
theorem sentimentTotals_go (txs : List Transaction) : ∀ w r i : Int,
    (txs.foldl (fun acc tx =>
      if tx.sentiment = "worthy" then (acc.1 + tx.amount, acc.2.1, acc.2.2)
      else if tx.sentiment = "regret" then (acc.1, acc.2.1 + tx.amount, acc.2.2)
      else (acc.1, acc.2.1, acc.2.2 + tx.amount)) (w, r, i)).1 +
    (txs.foldl (fun acc tx =>
      if tx.sentiment = "worthy" then (acc.1 + tx.amount, acc.2.1, acc.2.2)
      else if tx.sentiment = "regret" then (acc.1, acc.2.1 + tx.amount, acc.2.2)
      else (acc.1, acc.2.1, acc.2.2 + tx.amount)) (w, r, i)).2.1 +
    (txs.foldl (fun acc tx =>
      if tx.sentiment = "worthy" then (acc.1 + tx.amount, acc.2.1, acc.2.2)
      else if tx.sentiment = "regret" then (acc.1, acc.2.1 + tx.amount, acc.2.2)
      else (acc.1, acc.2.1, acc.2.2 + tx.amount)) (w, r, i)).2.2
      = w + r + i + (txs.map (fun t => t.amount)).sum := by
  induction txs with
  | nil => intro w r i; simp
  | cons t ts ih =>
    intro w r i
    rw [List.foldl_cons, List.map_cons, List.sum_cons]
    dsimp only
    split_ifs <;> rw [ih] <;> omega

/-- The heatmap day total is nonnegative when all amounts are. -/
theorem spend_foldl_nonneg (dateOf : Int → CalDate) (now year month i : Int) :
    ∀ (txs : List Transaction) (c : Int), (∀ tx ∈ txs, 0 ≤ tx.amount) → 0 ≤ c →
      0 ≤ txs.foldl (fun acc tx =>
        let ts := if tx.timestamp = 0 then now else tx.timestamp
        let d := dateOf ts
        if d.month = month ∧ d.year = year ∧ d.day = i then acc + tx.amount
        else acc) c := by
  intro txs
  induction txs with
  | nil => intro c _ hc; simpa using hc
  | cons t ts ih =>
    intro c h hc
    rw [List.foldl_cons]
    apply ih _ (fun tx htx => h tx (List.mem_cons_of_mem _ htx))
    have ht := h t (List.mem_cons_self _ _)
    dsimp only
    split <;> omega

theorem spendOnDay_nonneg (txs : List Transaction) (dateOf : Int → CalDate)
    (now year month i : Int) (h : ∀ tx ∈ txs, 0 ≤ tx.amount) :
    0 ≤ spendOnDay txs dateOf now year month i :=
  spend_foldl_nonneg dateOf now year month i txs 0 h le_rfl

/-- `splice(start, 1)` with a start at or past the end removes nothing. -/
theorem spliceOne_of_le_length {α : Type} (xs : List α) (i : Int)
    (h : (xs.length : Int) ≤ i) : spliceOne xs i = xs := by
  have h0 : ¬ i < 0 := by omega
  simp only [spliceOne, if_neg h0, min_eq_right h, Int.toNat_natCast]
  rw [List.take_length, List.drop_eq_nil_of_le (by omega), List.append_nil]

/-- The heatmap tier is zero exactly on a zero (nonnegative) total. -/
theorem heatTier_eq_zero_iff (s : Int) (hs : 0 ≤ s) :
    heatTier s = 0 ↔ s = 0 := by
  constructor
  · intro h
    by_contra hne
    simp only [heatTier] at h
    split_ifs at h
    omega
  · intro h
    subst h
    rfl

/-- The heatmap tier is monotone in the day total. -/
theorem heatTier_mono (s1 s2 : Int) (h : s1 ≤ s2) :
    heatTier s1 ≤ heatTier s2 := by
  simp only [heatTier]
  split_ifs <;> omega

/-! ## Claim theorems -/

/-- C3: the claim demands that `addLoan` (`saveLoan`) with
`durationDays = 0` be rejected with a validation error, leaving the loans
collection unchanged.  The code performs no validation: evaluated at the
failing input (`type = borrow`, `amount = 10000`, `durationDays = 0`) it
pushes a loan whose stored `dailyAmount` is `Math.floor(10000 / 0) =
Infinity`, and the loans collection grows by one. -/
theorem saveLoan_zero_duration_accepted :
    (saveLoan initialLocal "borrow" "Alice" (some 10000) (some 0) 1).activeLoans =
      [⟨1, "borrow", "Alice", some 10000, some 0, JSNum.posInf⟩] ∧
    (saveLoan initialLocal "borrow" "Alice" (some 10000) (some 0) 1).activeLoans.length
      = initialLocal.activeLoans.length + 1 :=
  ⟨rfl, rfl⟩

/-- C7: for every transaction list, every time filter and every clock
reading, the three sentiment totals (worthy, regret, and the residual
"ignore"/neutral bucket) computed by `updateSentimentAnalysis` over the
filtered transactions sum exactly to the total amount of the filtered
transactions. -/
theorem sentimentTotals_partition (txs : List Transaction)
    (currentFilter : String) (now : Int) :
    (sentimentTotals (getFilteredTransactions txs currentFilter now)).1 +
      (sentimentTotals (getFilteredTransactions txs currentFilter now)).2.1 +
      (sentimentTotals (getFilteredTransactions txs currentFilter now)).2.2 =
      sumAmounts (getFilteredTransactions txs currentFilter now) := by
  have h := sentimentTotals_go (getFilteredTransactions txs currentFilter now) 0 0 0
  have h2 := foldl_add_amount (getFilteredTransactions txs currentFilter now) 0
  simp only [sentimentTotals, sumAmounts]
  omega

/-- C8: under the data-model invariant that transaction amounts are
nonnegative, the heatmap tier of a day's spend total is tier 0 ("none")
exactly when the total is 0, is the highest tier (3) whenever the total is
at least 2000, uses the absolute thresholds `> 0`, `≥ 500`, `≥ 2000`, and
is monotone: a day with a larger total never gets a strictly lower tier. -/
theorem heatTier_properties (txs : List Transaction) (dateOf : Int → CalDate)
    (now year month d1 d2 : Int) (h : ∀ tx ∈ txs, 0 ≤ tx.amount) :
    (heatTier (spendOnDay txs dateOf now year month d1) = 0 ↔
      spendOnDay txs dateOf now year month d1 = 0) ∧
    (heatTier (spendOnDay txs dateOf now year month d1) =
      (if 2000 ≤ spendOnDay txs dateOf now year month d1 then 3
       else if 500 ≤ spendOnDay txs dateOf now year month d1 then 2
       else if 0 < spendOnDay txs dateOf now year month d1 then 1 else 0)) ∧
    (spendOnDay txs dateOf now year month d1 ≤ spendOnDay txs dateOf now year month d2 →
      heatTier (spendOnDay txs dateOf now year month d1) ≤
        heatTier (spendOnDay txs dateOf now year month d2)) := by
  exact ⟨heatTier_eq_zero_iff _ (spendOnDay_nonneg txs dateOf now year month d1 h),
    rfl, fun hle => heatTier_mono _ _ hle⟩

/-- C8 witness: a concrete day with a total of 600 and a day with a total
of 0 on a concrete date assignment. -/
theorem heatTier_properties_witness :
    (heatTier (spendOnDay [⟨"", "Cafe", "Food", "worthy", 5, 600⟩] dateOfDay15
        0 2026 3 15) = 0 ↔
      spendOnDay [⟨"", "Cafe", "Food", "worthy", 5, 600⟩] dateOfDay15
        0 2026 3 15 = 0) ∧
    (heatTier (spendOnDay [⟨"", "Cafe", "Food", "worthy", 5, 600⟩] dateOfDay15
        0 2026 3 15) =
      (if 2000 ≤ spendOnDay [⟨"", "Cafe", "Food", "worthy", 5, 600⟩] dateOfDay15
          0 2026 3 15 then 3
       else if 500 ≤ spendOnDay [⟨"", "Cafe", "Food", "worthy", 5, 600⟩] dateOfDay15
          0 2026 3 15 then 2
       else if 0 < spendOnDay [⟨"", "Cafe", "Food", "worthy", 5, 600⟩] dateOfDay15
          0 2026 3 15 then 1 else 0)) ∧
    (spendOnDay [⟨"", "Cafe", "Food", "worthy", 5, 600⟩] dateOfDay15 0 2026 3 15 ≤
        spendOnDay [⟨"", "Cafe", "Food", "worthy", 5, 600⟩] dateOfDay15 0 2026 3 16 →
      heatTier (spendOnDay [⟨"", "Cafe", "Food", "worthy", 5, 600⟩] dateOfDay15
          0 2026 3 15) ≤
        heatTier (spendOnDay [⟨"", "Cafe", "Food", "worthy", 5, 600⟩] dateOfDay15
          0 2026 3 16)) :=
  heatTier_properties [⟨"", "Cafe", "Food", "worthy", 5, 600⟩] dateOfDay15
    0 2026 3 15 16 (by decide)

/-- C9 counterexample: the claim states that `removeFixedExpense` with any
index outside the current sequence leaves the sequence unchanged.  With
the scenario sequence of length 2 and index `-5` (which refers to no
existing fixed expense), JavaScript `splice` clamps the negative start to
0 and removes the first element. -/
theorem removeFixedExpense_negative_index_counterexample :
    (removeFixedExpense scenarioState (-5)).fixedExpenses = [⟨"Internet", 1000⟩] ∧
    (removeFixedExpense scenarioState (-5)).fixedExpenses ≠
      scenarioState.fixedExpenses := by
  refine ⟨rfl, ?_⟩
  decide

/-- C9 (amended): `removeFixedExpense` with a nonnegative index at or past
the end of the sequence is a no-op, and `removeGoal` with an id not
present in the goals set is a no-op; a NEGATIVE out-of-range index,
however, is interpreted by JavaScript `splice` relative to the end of the
sequence and can remove an element. -/
theorem remove_absent_noop (st : LocalState) (i id : Int)
    (hi : (st.fixedExpenses.length : Int) ≤ i)
    (hid : ∀ g ∈ st.activeGoals, g.id ≠ id) :
    removeFixedExpense st i = st ∧ removeGoal st id = st := by
  constructor
  · show { st with fixedExpenses := spliceOne st.fixedExpenses i } = st
    rw [spliceOne_of_le_length _ _ hi]
  · show { st with activeGoals := st.activeGoals.filter _ } = st
    rw [List.filter_eq_self.mpr (fun g hg => by simpa using hid g hg)]

/-- C9 witness: index 5 on the length-2 scenario sequence and an id absent
from the (empty) goals set. -/
theorem remove_absent_noop_witness :
    removeFixedExpense scenarioState 5 = scenarioState ∧
    removeGoal scenarioState 42 = scenarioState :=
  remove_absent_noop scenarioState 5 42 (by decide) (by decide)

/-- C1 counterexample: on the scenario snapshot as hydrated in a fresh
session — the stored transaction list contains a purchase of 100 made
earlier today, while the session accumulator `dailySpent` is 0 — the
spec formula (divide by 30 days in the month, subtract the
timestamp-derived spend of today) yields 366, but the dashboard.js
derivation (which divides by the 15 days REMAINING on day 15 and
subtracts `dailySpent`) yields 933, and the revised part_001 derivation
(which divides by 30 but also subtracts `dailySpent`) yields 466. -/
theorem dailySafeSpend_claim_counterexample :
    claimedDailySafeSpend scenarioStateSpentToday dateOfDay15 ⟨2026, 3, 15⟩ 30 = 366 ∧
    recalculateDashboard scenarioStateSpentToday 15 30 = .int 933 ∧
    recalculateDashboardFixed scenarioStateSpentToday 30 = .int 466 ∧
    recalculateDashboard scenarioStateSpentToday 15 30 ≠ .int 366 ∧
    recalculateDashboardFixed scenarioStateSpentToday 30 ≠ .int 366 := by
  refine ⟨?_, ?_, ?_, ?_, ?_⟩ <;> decide

/-- C1 (amended): whenever the loan and goal deductions are finite
integers and the current day is within the month, the dashboard.js daily
safe spend equals `max(0, floor((monthlyLimit − ΣfixedExpenses) /
max(daysInMonth − day, 1)) − Σborrow.daily − Σgoals.daily − dailySpent)`
— the divisor is the days REMAINING in the month, and the spend term is
the session accumulator `dailySpent`, not the timestamp-derived sum — and
the revised part_001 derivation equals the same expression with divisor
`daysInMonth`; on the spec scenario (limit 30000, fixed 16000, 30-day
month, nothing else) the revised derivation yields 466. -/
theorem dailySafeSpend_formula_amended (st : LocalState) (day dim D G : Int)
    (hD : dailyDebtOf st.activeLoans = .int D)
    (hG : dailyGoalOf st.activeGoals = .int G)
    (hday : day ≤ dim) :
    recalculateDashboard st day dim =
      .int (max 0 (Int.fdiv (st.monthlyLimit - totalFixedOf st.fixedExpenses)
        (max (dim - day) 1) - D - G - st.dailySpent)) ∧
    recalculateDashboardFixed st dim =
      .int (max 0 (Int.fdiv (st.monthlyLimit - totalFixedOf st.fixedExpenses)
        dim - D - G - st.dailySpent)) ∧
    recalculateDashboardFixed scenarioState 30 = .int 466 := by
  have hif : (if dim - day = 0 then 1 else dim - day) = max (dim - day) 1 := by
    split <;> omega
  refine ⟨?_, recalculateDashboardFixed_eq st dim D G hD hG, by decide⟩
  rw [recalculateDashboard_eq st day dim D G hD hG, hif]

/-- C1 witness: the amended formula evaluated on the spec scenario on day
15 of a 30-day month. -/
theorem dailySafeSpend_formula_amended_witness :
    recalculateDashboard scenarioState 15 30 =
      .int (max 0 (Int.fdiv (scenarioState.monthlyLimit -
        totalFixedOf scenarioState.fixedExpenses)
        (max (30 - 15) 1) - 0 - 0 - scenarioState.dailySpent)) ∧
    recalculateDashboardFixed scenarioState 30 =
      .int (max 0 (Int.fdiv (scenarioState.monthlyLimit -
        totalFixedOf scenarioState.fixedExpenses)
        30 - 0 - 0 - scenarioState.dailySpent)) ∧
    recalculateDashboardFixed scenarioState 30 = .int 466 :=
  dailySafeSpend_formula_amended scenarioState 15 30 0 0 rfl rfl (by decide)

/-- C4: inserting a loan of type `lend` anywhere into the ledger's loans
— equivalently, removing it — changes neither the dashboard.js daily
safe spend nor the revised part_001 one: only `borrow` loans enter the
debt deduction. -/
theorem lend_loans_do_not_affect_safeSpend (st : LocalState)
    (pre post : List Loan) (l : Loan) (day dim : Int) (h : l.type = "lend") :
    recalculateDashboard { st with activeLoans := pre ++ l :: post } day dim =
      recalculateDashboard { st with activeLoans := pre ++ post } day dim ∧
    recalculateDashboardFixed { st with activeLoans := pre ++ l :: post } dim =
      recalculateDashboardFixed { st with activeLoans := pre ++ post } dim := by
  have hnb : ¬ l.type = "borrow" := by rw [h]; decide
  constructor
  · simp [recalculateDashboard, dailyDebtOf_skip _ _ _ hnb]
  · simp [recalculateDashboardFixed, dailyDebtOf_skip _ _ _ hnb]

/-- C4 witness: a concrete lend loan added to the scenario ledger. -/
theorem lend_loans_do_not_affect_safeSpend_witness :
    recalculateDashboard { scenarioState with activeLoans := [] ++ lendLoan :: [] } 15 30 =
      recalculateDashboard { scenarioState with activeLoans := [] ++ [] } 15 30 ∧
    recalculateDashboardFixed { scenarioState with activeLoans := [] ++ lendLoan :: [] } 30 =
      recalculateDashboardFixed { scenarioState with activeLoans := [] ++ [] } 30 :=
  lend_loans_do_not_affect_safeSpend scenarioState [] [] lendLoan 15 30 rfl

/-- C5: a loan saved with integer amount `a ≥ 0` and duration `d ≥ 1` is
stored with `dailyAmount = floor(a / d)`, and when the loan is a `borrow`
and the deducted result stays at or above the zero clamp, the dashboard
daily safe spend decreases by exactly that `dailyAmount`; in particular
the spec loan (amount 10000, duration 50) is stored with daily 200 and
lowers the revised scenario value from 466 to 266. -/
theorem saveLoan_dailyAmount_and_effect (st : LocalState) (person : String)
    (a d newId day dim D G : Int) (ha : 0 ≤ a) (hd : 1 ≤ d)
    (hD : dailyDebtOf st.activeLoans = .int D)
    (hG : dailyGoalOf st.activeGoals = .int G)
    (hclamp : 0 ≤ Int.fdiv (st.monthlyLimit - totalFixedOf st.fixedExpenses)
      (if dim - day = 0 then 1 else dim - day) - D - G - st.dailySpent
      - Int.fdiv a d) :
    (saveLoan st "borrow" person (some a) (some d) newId).activeLoans =
      st.activeLoans ++ [⟨newId, "borrow", person, some a, some d,
        .int (Int.fdiv a d)⟩] ∧
    recalculateDashboard (saveLoan st "borrow" person (some a) (some d) newId)
        day dim =
      jsSub (recalculateDashboard st day dim) (.int (Int.fdiv a d)) ∧
    (saveLoan scenarioState "borrow" "Bob" (some 10000) (some 50) 7).activeLoans =
      [⟨7, "borrow", "Bob", some 10000, some 50, .int 200⟩] ∧
    recalculateDashboardFixed
      (saveLoan scenarioState "borrow" "Bob" (some 10000) (some 50) 7) 30 =
      .int 266 ∧
    recalculateDashboardFixed scenarioState 30 = .int 466 := by
  have hdaily : jsFloorDivP (some a) (some d) = .int (Int.fdiv a d) := by
    simp only [jsFloorDivP]
    rw [if_neg (by omega : ¬ d = 0)]
  have hf : 0 ≤ Int.fdiv a d := Int.fdiv_nonneg ha (by omega)
  refine ⟨?_, ?_, by decide, by decide, by decide⟩
  · simp [saveLoan, hdaily]
  · have hD' : dailyDebtOf
        (saveLoan st "borrow" person (some a) (some d) newId).activeLoans =
        .int (D + Int.fdiv a d) := by
      simp only [saveLoan]
      rw [dailyDebtOf_push_borrow _ _ rfl, hD, hdaily, jsAdd_int]
    have hG' : dailyGoalOf
        (saveLoan st "borrow" person (some a) (some d) newId).activeGoals =
        .int G := hG
    rw [recalculateDashboard_eq _ day dim _ _ hD' hG',
      recalculateDashboard_eq st day dim D G hD hG, jsSub_int]
    simp only [saveLoan]
    congr 1
    omega

/-- C5 witness: the spec loan on the scenario ledger on day 15 of a 30-day
month. -/
theorem saveLoan_dailyAmount_and_effect_witness :
    (saveLoan scenarioState "borrow" "Bob" (some 10000) (some 50) 7).activeLoans =
      scenarioState.activeLoans ++ [⟨7, "borrow", "Bob", some 10000, some 50,
        .int (Int.fdiv 10000 50)⟩] ∧
    recalculateDashboard
        (saveLoan scenarioState "borrow" "Bob" (some 10000) (some 50) 7) 15 30 =
      jsSub (recalculateDashboard scenarioState 15 30) (.int (Int.fdiv 10000 50)) ∧
    (saveLoan scenarioState "borrow" "Bob" (some 10000) (some 50) 7).activeLoans =
      [⟨7, "borrow", "Bob", some 10000, some 50, .int 200⟩] ∧
    recalculateDashboardFixed
      (saveLoan scenarioState "borrow" "Bob" (some 10000) (some 50) 7) 30 =
      .int 266 ∧
    recalculateDashboardFixed scenarioState 30 = .int 466 :=
  saveLoan_dailyAmount_and_effect scenarioState "Bob" 10000 50 7 15 30 0 0
    (by decide) (by decide) rfl rfl (by decide)

/-- C6: a goal saved with non-empty fields, integer target `a ≥ 0` and a
deadline not in the past is stored with
`dailyContribution = ceil(a / max(daysUntil(deadline), 1))` and
`daysRemaining = max(daysUntil(deadline), 1)`, computed once at creation
time, and they satisfy `dailyContribution × daysRemaining ≥ a`. -/
theorem saveGoal_dailyContribution_ceiling (st : LocalState)
    (name amountRaw dateRaw : String) (a dl today newId : Int)
    (hname : name ≠ "") (hamt : amountRaw ≠ "") (hdate : dateRaw ≠ "")
    (_ha : 0 ≤ a) (hfut : today ≤ dl) :
    (saveGoal st name amountRaw dateRaw (some a) (some dl) today newId).activeGoals =
      st.activeGoals ++ [⟨newId, name, some a, dateRaw,
        .int (specDailyContribution a dl today),
        max (specDaysUntil dl today) 1⟩] ∧
    a ≤ specDailyContribution a dl today *
      ((max (specDaysUntil dl today) 1 : Nat) : Int) := by
  have hdd : goalDiffDays (some dl) today = max (specDaysUntil dl today) 1 := by
    simp only [goalDiffDays, specDaysUntil]
    have habs : (dl - today).natAbs = (dl - today).toNat := by omega
    rw [habs]
    split <;> omega
  constructor
  · simp only [saveGoal,
      if_neg (by simp [hname, hamt, hdate] : ¬(name = "" ∨ amountRaw = "" ∨ dateRaw = ""))]
    rw [hdd]
    simp [jsCeilDivP, specDailyContribution]
  · have h := le_ceilDivInt_mul a ((max (specDaysUntil dl today) 1 : Nat) : Int)
      (by omega)
    simpa [specDailyContribution] using h

/-- C6 witness: a goal of 9000 with a deadline 10 days (in milliseconds)
away is stored with a daily contribution of 900 and 10 days remaining. -/
theorem saveGoal_dailyContribution_ceiling_witness :
    (saveGoal initialLocal "Trip" "9000" "2026-05-01" (some 9000)
        (some 864000000) 0 3).activeGoals =
      initialLocal.activeGoals ++ [⟨3, "Trip", some 9000, "2026-05-01",
        .int (specDailyContribution 9000 864000000 0),
        max (specDaysUntil 864000000 0) 1⟩] ∧
    (9000 : Int) ≤ specDailyContribution 9000 864000000 0 *
      ((max (specDaysUntil 864000000 0) 1 : Nat) : Int) :=
  saveGoal_dailyContribution_ceiling initialLocal "Trip" "9000" "2026-05-01"
    9000 864000000 0 3 (by decide) (by decide) (by decide) (by decide) (by decide)

/-- `saveState` never assigns the `monthlyLimit` field of
`window.userData`. -/
theorem saveState_monthlyLimit (st : LocalState) (ud : Doc) :
    (saveState st ud).monthlyLimit = ud.monthlyLimit := rfl

/-- Along any sequence of mutating actions, neither the serialized
document nor the remote document ever changes its `monthlyLimit`. -/
theorem runSession_monthlyLimit_aux (ml : Option Int) (ops : List Op) :
    ∀ s : Session, s.userData.monthlyLimit = ml → s.remote.monthlyLimit = ml →
      (runSession s ops).userData.monthlyLimit = ml ∧
      (runSession s ops).remote.monthlyLimit = ml := by
  induction ops with
  | nil => intro s h1 h2; exact ⟨h1, h2⟩
  | cons op ops ih =>
    intro s h1 h2
    have hud : (sessionStep s op).userData.monthlyLimit = ml := by
      rw [show (sessionStep s op).userData =
        saveState (applyOp op s.state) s.userData from rfl]
      rw [saveState_monthlyLimit]
      exact h1
    have hrm : (sessionStep s op).remote.monthlyLimit = ml := by
      rw [show (sessionStep s op).remote =
        mergeDoc s.remote (saveState (applyOp op s.state) s.userData) from rfl]
      show (match (saveState (applyOp op s.state) s.userData).monthlyLimit with
        | some v => some v
        | none => s.remote.monthlyLimit) = ml
      rw [saveState_monthlyLimit, h1]
      cases ml with
      | some v => rfl
      | none => exact h2
    exact ih (sessionStep s op) hud hrm

/-- C10 counterexample: the claim states that the document serialized and
committed after a mutation never contains a `monthlyLimit` field.  After
hydrating a fresh account and running `saveBudgetSettings` with 5000, the
committed `window.userData` DOES contain `monthlyLimit` — carried over
unchanged as the creation value 0, not the newly set 5000 — and the
merged remote document keeps 0. -/
theorem committed_doc_contains_monthlyLimit :
    (sessionStep ⟨hydrate (defaultUser 0) initialLocal, defaultUser 0, defaultUser 0⟩
      (Op.opSaveBudgetSettings (some 5000))).userData.monthlyLimit = some 0 ∧
    (sessionStep ⟨hydrate (defaultUser 0) initialLocal, defaultUser 0, defaultUser 0⟩
      (Op.opSaveBudgetSettings (some 5000))).userData.monthlyLimit ≠ none ∧
    (sessionStep ⟨hydrate (defaultUser 0) initialLocal, defaultUser 0, defaultUser 0⟩
      (Op.opSaveBudgetSettings (some 5000))).userData.monthlyLimit ≠ some 5000 ∧
    (sessionStep ⟨hydrate (defaultUser 0) initialLocal, defaultUser 0, defaultUser 0⟩
      (Op.opSaveBudgetSettings (some 5000))).remote.monthlyLimit = some 0 := by
  have h : (sessionStep ⟨hydrate (defaultUser 0) initialLocal, defaultUser 0,
      defaultUser 0⟩
      (Op.opSaveBudgetSettings (some 5000))).userData.monthlyLimit = some 0 := rfl
  exact ⟨h, by rw [h]; decide, by rw [h]; decide, rfl⟩

/-- C10 (amended): the document committed after every mutation carries its
`monthlyLimit` field over from the hydrated document unchanged
(`saveState` never assigns it), so under the merge write the remote
document's `monthlyLimit` remains the value written at account creation
and is never updated by any mutator, including `saveBudgetSettings`. -/
theorem remote_monthlyLimit_never_updated (st0 : LocalState) (d : Doc)
    (ops : List Op) :
    (runSession ⟨st0, d, d⟩ ops).userData.monthlyLimit = d.monthlyLimit ∧
    (runSession ⟨st0, d, d⟩ ops).remote.monthlyLimit = d.monthlyLimit :=
  runSession_monthlyLimit_aux d.monthlyLimit ops ⟨st0, d, d⟩ rfl rfl

/-- C2 counterexample: the claim states that first-time hydration produces
an in-memory aggregate with all collections empty and `monthlyLimit = 0`.
Hydrating the freshly created default document, the dashboard.js listener
leaves `monthlyLimit` at its hard-coded module default 30000 (it never
reads the stored 0) and seeds a "Roommates" entry into the chat-group
map, so the aggregate's `monthlyLimit` is not 0 and its `chatGroups`
collection is not empty. -/
theorem firstTimeHydration_counterexample :
    (hydrate (loadUserDoc none 0).1 initialLocal).monthlyLimit ≠ 0 ∧
    (hydrate (loadUserDoc none 0).1 initialLocal).chatStore ≠ [] := by
  constructor <;> decide

/-- C2 (amended): for a first-time user exactly the default document —
all collections empty, `monthlyLimit = 0` — is written to the remote
store, and the hydrated aggregate has empty transactions, fixed expenses,
goals and loans; but its chat-group and group-member maps are seeded with
an empty default "Roommates" group, and its in-memory `monthlyLimit` is
the hard-coded 30000, not the stored 0. -/
theorem firstTimeHydration_amended (t0 : Int) :
    (loadUserDoc none t0).2 = [defaultUser t0] ∧
    (defaultUser t0).transactions = [] ∧
    (defaultUser t0).fixedExpenses = [] ∧
    (defaultUser t0).goals = [] ∧
    (defaultUser t0).loans = [] ∧
    (defaultUser t0).chatGroups = [] ∧
    (defaultUser t0).groupMembers = [] ∧
    (defaultUser t0).monthlyLimit = some 0 ∧
    (hydrate (loadUserDoc none t0).1 initialLocal).transactions = [] ∧
    (hydrate (loadUserDoc none t0).1 initialLocal).fixedExpenses = [] ∧
    (hydrate (loadUserDoc none t0).1 initialLocal).activeGoals = [] ∧
    (hydrate (loadUserDoc none t0).1 initialLocal).activeLoans = [] ∧
    (hydrate (loadUserDoc none t0).1 initialLocal).chatStore = [("Roommates", [])] ∧
    (hydrate (loadUserDoc none t0).1 initialLocal).groupMembers =
      [("Roommates", [])] ∧
    (hydrate (loadUserDoc none t0).1 initialLocal).monthlyLimit = 30000 :=
  ⟨rfl, rfl, rfl, rfl, rfl, rfl, rfl, rfl, rfl, rfl, rfl, rfl, rfl, rfl, rfl⟩

end MoneyMgmt
